import Mathlib

/-!
Verification development for the codeitout backend.

The repository is a Node/Express HTTP service with two controller files:
an authentication controller (register, login, logout, check) and a
problem controller whose central operation is `createProblem`, the
problem-validation pipeline.  Below we embed those handlers shallowly:
each JavaScript handler becomes a pure Lean function; the database, the
bcrypt/jwt libraries and the remote Judge0 service are external
collaborators and are modelled as explicit parameters; every externally
visible effect of a handler (HTTP response, cookies set, judge batches
submitted, records persisted) is returned as data so that theorems can
quantify over it.
-/

namespace Codeitout

/-- User roles, from the Prisma `UserRole` enum (README schema): USER, ADMIN. -/
inductive Role where
  | USER
  | ADMIN
deriving DecidableEq, BEq

/-- A stored user record (Prisma `User` model plus the optional `name` and
`image` fields the controllers read). -/
structure User where
  id : Nat
  email : String
  password : String
  name : String
  role : Role
  image : Option String
deriving DecidableEq

/-- A test case of a problem draft: `{ input, output }`. -/
structure TestCase where
  input : String
  output : String
deriving DecidableEq

/-- An example of a problem draft (passed through to the store untouched). -/
structure Example where
  input : String
  output : String
  explanation : String
deriving DecidableEq

/-- The problem draft destructured from `req.body` in `createProblem`.
JavaScript object iteration over `referenceSolutions` and `codeSnippets`
follows insertion order, so both mappings are embedded as ordered
association lists of (language, source) pairs. -/
structure ProblemDraft where
  title : String
  description : String
  difficulty : String
  tags : List String
  examples : List Example
  constraints : String
  testCases : List TestCase
  codeSnippets : List (String × String)
  referenceSolutions : List (String × String)
deriving DecidableEq

/-- One Judge0 submission unit, as built in Step 2.2 of `createProblem`:
`{ source_code, language_id, stdin, expected_output }`. -/
structure Submission where
  source_code : String
  language_id : Nat
  stdin : String
  expected_output : String
deriving DecidableEq

/-- The status object inside a Judge0 result; `status.id = 3` means Accepted. -/
structure JudgeStatus where
  id : Nat
deriving DecidableEq

/-- A terminal Judge0 result as consumed by Step 2.6 of `createProblem`. -/
structure JudgeResult where
  status : JudgeStatus
  token : String
deriving DecidableEq

/-- Modelled from the spec: the Judge Client (`getJudge0LanguageId`,
`submitBatch`, `pollBatchResults`) lives outside the available sources, so
it is modelled as an environment following the spec contract: a static
language-id lookup table, and a batch runner that either throws
(JudgeUnavailable / JudgeProtocolError / JudgeTimeout, collapsed into
`Except.error`) or returns one terminal result per polled token.
`runBatch` is the composition of `submitBatch` and `pollBatchResults`,
which the code always calls back to back on the returned tokens. -/
structure JudgeEnv where
  lookupId : String → Option Nat
  runBatch : List Submission → Except Unit (List JudgeResult)

/-- The spec contract of the Judge Client: polling returns results in the
same order as the submitted units, one result per unit. -/
def JudgeEnv.OrderPreserving (env : JudgeEnv) : Prop :=
  ∀ subs results, env.runBatch subs = Except.ok results →
    results.length = subs.length

/-- The requesting user as seen by `createProblem` (`req.user`, set by the
auth middleware); only `id` and `role` are read. -/
structure ReqUser where
  id : Nat
  role : Role
deriving DecidableEq

/-- A persisted Problem record, as passed to `db.problem.create` in Step 3. -/
structure Problem where
  title : String
  description : String
  difficulty : String
  tags : List String
  examples : List Example
  constraints : String
  testCases : List TestCase
  codeSnippets : List (String × String)
  referenceSolutions : List (String × String)
  userId : Nat
deriving DecidableEq

/-- The five response shapes `createProblem` can produce, one per
`res.status(...).json(...)` site. -/
inductive CPResponse where
  | unauthorized
  | unsupportedLanguage (language : String)
  | validationFailed (language : String) (stdin : String) (details : JudgeResult)
  | created (problem : Problem)
  | serverError
deriving DecidableEq

/-- HTTP status code of each `createProblem` response site. -/
def CPResponse.statusCode : CPResponse → Nat
  | .unauthorized => 401
  | .unsupportedLanguage _ => 400
  | .validationFailed _ _ _ => 400
  | .created _ => 201
  | .serverError => 500

/-- Step 2.2: one submission per test case, preserving test-case order. -/
def buildSubmissions (solutionCode : String) (languageId : Nat)
    (testCases : List TestCase) : List Submission :=
  testCases.map fun tc =>
    { source_code := solutionCode
      language_id := languageId
      stdin := tc.input
      expected_output := tc.output }

/-- Step 2.6: the indexed scan `for (let i = 0; ...)` looking for the first
result whose `status.id !== 3`; returns that index and result. -/
def scanResults (i : Nat) : List JudgeResult → Option (Nat × JudgeResult)
  | [] => none
  | r :: rs => if r.status.id ≠ 3 then some (i, r) else scanResults (i + 1) rs

/-- Steps 2.1–2.6 of `createProblem`, iterated over the reference-solutions
entries in insertion order.  Returns the early-exit response (if any)
together with the list of batches handed to `submitBatch`, in submission
order.  An unresolved language returns before any batch for it is built; a
thrown judge call surfaces as the catch-all 500; a result index outside the
submissions list (impossible for an order-preserving judge) would make
`submissions[i].stdin` throw a TypeError in JavaScript, also landing in the
catch-all 500. -/
def loopLangs (env : JudgeEnv) (testCases : List TestCase) :
    List (String × String) → Option CPResponse × List (List Submission)
  | [] => (none, [])
  | (language, solutionCode) :: rest =>
    match env.lookupId language with
    | none => (some (CPResponse.unsupportedLanguage language), [])
    | some languageId =>
      let submissions := buildSubmissions solutionCode languageId testCases
      match env.runBatch submissions with
      | Except.error _ => (some CPResponse.serverError, [submissions])
      | Except.ok results =>
        match scanResults 0 results with
        | some (i, result) =>
          match submissions[i]? with
          | some s =>
            (some (CPResponse.validationFailed language s.stdin result),
              [submissions])
          | none => (some CPResponse.serverError, [submissions])
        | none =>
          let out := loopLangs env testCases rest
          (out.1, submissions :: out.2)

/-- The full outcome of one `createProblem` invocation: the HTTP response,
the batches submitted to the judge, and the problem records persisted via
`db.problem.create`. -/
structure CPResult where
  response : CPResponse
  batches : List (List Submission)
  persisted : List Problem
deriving DecidableEq

/-- Step 3: the record handed to `db.problem.create` — every draft field
plus `userId: req.user.id`.  The store is modelled as returning the stored
record unchanged. -/
def mkProblem (draft : ProblemDraft) (userId : Nat) : Problem :=
  { title := draft.title
    description := draft.description
    difficulty := draft.difficulty
    tags := draft.tags
    examples := draft.examples
    constraints := draft.constraints
    testCases := draft.testCases
    codeSnippets := draft.codeSnippets
    referenceSolutions := draft.referenceSolutions
    userId := userId }

/-- The `createProblem` handler: Step 1 rejects non-admin requesters before
any judge interaction; Step 2 validates every language; Step 3 persists and
Step 4 returns 201 only when the whole loop finished without an early
return. -/
def createProblem (env : JudgeEnv) (user : ReqUser) (draft : ProblemDraft) :
    CPResult :=
  if user.role ≠ Role.ADMIN then
    { response := CPResponse.unauthorized, batches := [], persisted := [] }
  else
    match loopLangs env draft.testCases draft.referenceSolutions with
    | (some r, bs) => { response := r, batches := bs, persisted := [] }
    | (none, bs) =>
      let newProblem := mkProblem draft user.id
      { response := CPResponse.created newProblem
        batches := bs
        persisted := [newProblem] }

/-! ## Authentication controller -/

/-- External collaborators of the auth controller: `bcrypt.hash` (with its
salt rounds already fixed at 10), `bcrypt.compare`, and the deployment
environment (`process.env.NODE_ENV`) read when setting the cookie's
`secure` flag. -/
structure AuthEnv where
  hash : String → String
  compare : String → String → Bool
  nodeEnv : String

/-- The user table behind `db.user`; `nextId` models the id Prisma assigns
to the next created row. -/
structure UserStore where
  users : List User
  nextId : Nat
deriving DecidableEq

/-- `db.user.findUnique({ where: { email } })`. -/
def findUserByEmail (store : UserStore) (email : String) : Option User :=
  store.users.find? fun u => u.email = email

/-- `db.user.create({ data: { email, password, name, role: UserRole.USER } })`:
returns the created row and the updated table. -/
def createUser (store : UserStore) (email password name : String) :
    User × UserStore :=
  let newUser : User :=
    { id := store.nextId
      email := email
      password := password
      name := name
      role := Role.USER
      image := none }
  (newUser, { users := store.users ++ [newUser], nextId := store.nextId + 1 })

/-- The payload and expiry of `jwt.sign({ id }, secret, { expiresIn: "7d" })`. -/
structure JwtToken where
  userId : Nat
  expiresIn : String
deriving DecidableEq

/-- The options passed to `res.cookie("jwt", token, ...)`. -/
structure CookieOpts where
  httpOnly : Bool
  sameSiteStrict : Bool
  secure : Bool
  maxAgeMs : Nat
deriving DecidableEq

/-- The cookie options both register and login use: httpOnly, strict
same-site, secure outside development, 7-day max age in milliseconds. -/
def sessionCookieOpts (env : AuthEnv) : CookieOpts :=
  { httpOnly := true
    sameSiteStrict := true
    secure := env.nodeEnv ≠ "development"
    maxAgeMs := 7 * 24 * 60 * 60 * 1000 }

/-- The user object serialized into the success bodies of register and
login: exactly the fields id, email, name, role, image. -/
structure UserView where
  id : Nat
  email : String
  name : String
  role : Role
  image : Option String
deriving DecidableEq

/-- Projection of a user record into a response body. -/
def userView (u : User) : UserView :=
  { id := u.id, email := u.email, name := u.name, role := u.role
    image := u.image }

/-- Request body of `POST /api/v1/auth/register`. -/
structure RegisterReq where
  email : String
  password : String
  name : String
deriving DecidableEq

/-- The response shapes of `register`: 400 when the email exists, 201 with
the user view on success. -/
inductive RegisterResponse where
  | emailTaken
  | registered (user : UserView)
deriving DecidableEq

/-- HTTP status code of each `register` response site. -/
def RegisterResponse.statusCode : RegisterResponse → Nat
  | .emailTaken => 400
  | .registered _ => 201

/-- The role of the user carried in a `register` response body, if any. -/
def RegisterResponse.bodyRole : RegisterResponse → Option Role
  | .emailTaken => none
  | .registered v => some v.role

/-- Outcome of one `register` invocation: response, the session cookie set
(if any), and the user table afterwards. -/
structure RegisterResult where
  response : RegisterResponse
  cookie : Option (JwtToken × CookieOpts)
  store : UserStore
deriving DecidableEq

/-- The `register` handler: reject duplicate emails with 400 and no cookie,
otherwise hash the password, create the user with role USER, set the jwt
cookie and answer 201 with the user view. -/
def register (env : AuthEnv) (store : UserStore) (req : RegisterReq) :
    RegisterResult :=
  match findUserByEmail store req.email with
  | some _ =>
    { response := RegisterResponse.emailTaken, cookie := none, store := store }
  | none =>
    let hashedPassword := env.hash req.password
    let out := createUser store req.email hashedPassword req.name
    let token : JwtToken := { userId := out.1.id, expiresIn := "7d" }
    { response := RegisterResponse.registered (userView out.1)
      cookie := some (token, sessionCookieOpts env)
      store := out.2 }

/-- Request body of `POST /api/v1/auth/login`. -/
structure LoginReq where
  email : String
  password : String
deriving DecidableEq

/-- The response shapes of `login`: 401 when the user is missing or the
password mismatches, 201 with the user view on success. -/
inductive LoginResponse where
  | userNotFound
  | invalidCredentials
  | loggedIn (user : UserView)
deriving DecidableEq

/-- Outcome of one `login` invocation. -/
structure LoginResult where
  response : LoginResponse
  cookie : Option (JwtToken × CookieOpts)
deriving DecidableEq

/-- The `login` handler (the implemented variant): look the user up by
email, compare the password against the stored hash, then issue the same
7-day jwt cookie as `register` and answer 201. -/
def login (env : AuthEnv) (store : UserStore) (req : LoginReq) : LoginResult :=
  match findUserByEmail store req.email with
  | none => { response := LoginResponse.userNotFound, cookie := none }
  | some user =>
    if env.compare req.password user.password then
      let token : JwtToken := { userId := user.id, expiresIn := "7d" }
      { response := LoginResponse.loggedIn (userView user)
        cookie := some (token, sessionCookieOpts env) }
    else
      { response := LoginResponse.invalidCredentials, cookie := none }

/-- The observable effects of a handler that only has `req`/`res` available:
the status it set (if any), whether it cleared the jwt cookie, and the user
body it sent (if any). -/
structure HandlerEffect where
  status : Option Nat
  clearedJwtCookie : Bool
  body : Option UserView
deriving DecidableEq

/-- The `logout` handler as written in the source:
`export const logout = async (req, res) => {};` — an empty body that never
touches `res`. -/
def logout (_user : User) : HandlerEffect :=
  { status := none, clearedJwtCookie := false, body := none }

/-- The `check` handler as written in the source:
`export const check = async (req, res) => {};` — an empty body that never
touches `res`. -/
def check (_user : User) : HandlerEffect :=
  { status := none, clearedJwtCookie := false, body := none }

/-! ## Helper lemmas about the validation loop -/

/-- The indexed scan finds nothing exactly when every result is Accepted. -/
lemma scanResults_none_iff (i : Nat) (results : List JudgeResult) :
    scanResults i results = none ↔ ∀ r ∈ results, r.status.id = 3 := by
  induction results generalizing i with
  | nil => simp [scanResults]
  | cons r rs ih =>
    by_cases h : r.status.id = 3
    · simp [scanResults, h, ih]
    · simp [scanResults, h]

/-- If index `k` holds the first non-Accepted result, the indexed scan
started at `i` returns `(i + k, results[k])`. -/
lemma scanResults_first (results : List JudgeResult) (k : Nat) (i : Nat)
    (hk : k < results.length)
    (hfail : (results.get ⟨k, hk⟩).status.id ≠ 3)
    (hfirst : ∀ j (hj : j < k), (results.get ⟨j, hj.trans hk⟩).status.id = 3) :
    scanResults i results = some (i + k, results.get ⟨k, hk⟩) := by
  induction results generalizing i k with
  | nil => simp at hk
  | cons r rs ih =>
    cases k with
    | zero =>
      simp only [List.get] at hfail ⊢
      simp [scanResults, hfail]
    | succ k =>
      have h0 : r.status.id = 3 := by
        have := hfirst 0 (Nat.succ_pos k)
        simpa [List.get] using this
      have hk2 : k < rs.length := Nat.lt_of_succ_lt_succ hk
      have hrec := ih k (i + 1) hk2 (by simpa [List.get] using hfail)
        (fun j hj => by simpa [List.get] using hfirst (j + 1) (Nat.succ_lt_succ hj))
      have hget : (r :: rs).get ⟨k + 1, hk⟩ = rs.get ⟨k, hk2⟩ := rfl
      have harith : i + 1 + k = i + (k + 1) := by omega
      simp only [scanResults, h0, ne_eq, not_true_eq_false, if_false, ite_false]
      rw [hrec, hget, harith]

/-- A (language, source) pair passes when its language resolves, the judge
call returns, and every returned result is Accepted. -/
def LangPasses (env : JudgeEnv) (testCases : List TestCase)
    (p : String × String) : Prop :=
  ∃ lid results, env.lookupId p.1 = some lid ∧
    env.runBatch (buildSubmissions p.2 lid testCases) = Except.ok results ∧
    ∀ r ∈ results, r.status.id = 3

/-- Loop step: an unresolved language returns the 400 immediately, with no
batch submitted. -/
lemma loopLangs_cons_unsupported (env : JudgeEnv) (tcs : List TestCase)
    (language solutionCode : String) (rest : List (String × String))
    (h : env.lookupId language = none) :
    loopLangs env tcs ((language, solutionCode) :: rest) =
      (some (CPResponse.unsupportedLanguage language), []) := by
  simp [loopLangs, h]

/-- Loop step: a thrown judge call lands in the catch-all 500, after the
batch was handed to `submitBatch`. -/
lemma loopLangs_cons_error (env : JudgeEnv) (tcs : List TestCase)
    (language solutionCode : String) (rest : List (String × String)) (lid : Nat)
    (hl : env.lookupId language = some lid)
    (he : env.runBatch (buildSubmissions solutionCode lid tcs) =
      Except.error ()) :
    loopLangs env tcs ((language, solutionCode) :: rest) =
      (some CPResponse.serverError, [buildSubmissions solutionCode lid tcs]) := by
  simp [loopLangs, hl, he]

/-- Loop step: a fully Accepted language contributes its batch and the loop
continues with the remaining languages. -/
lemma loopLangs_cons_pass (env : JudgeEnv) (tcs : List TestCase)
    (language solutionCode : String) (rest : List (String × String)) (lid : Nat)
    (results : List JudgeResult)
    (hl : env.lookupId language = some lid)
    (hr : env.runBatch (buildSubmissions solutionCode lid tcs) =
      Except.ok results)
    (hs : scanResults 0 results = none) :
    loopLangs env tcs ((language, solutionCode) :: rest) =
      ((loopLangs env tcs rest).1,
        buildSubmissions solutionCode lid tcs :: (loopLangs env tcs rest).2) := by
  simp [loopLangs, hl, hr, hs]

/-- Loop step: a first failing result at index `i` produces the 400 naming
the language and the submission's stdin, and stops the loop with only this
language's batch submitted. -/
lemma loopLangs_cons_fail (env : JudgeEnv) (tcs : List TestCase)
    (language solutionCode : String) (rest : List (String × String)) (lid : Nat)
    (results : List JudgeResult) (i : Nat) (res : JudgeResult) (s : Submission)
    (hl : env.lookupId language = some lid)
    (hr : env.runBatch (buildSubmissions solutionCode lid tcs) =
      Except.ok results)
    (hs : scanResults 0 results = some (i, res))
    (hg : (buildSubmissions solutionCode lid tcs)[i]? = some s) :
    loopLangs env tcs ((language, solutionCode) :: rest) =
      (some (CPResponse.validationFailed language s.stdin res),
        [buildSubmissions solutionCode lid tcs]) := by
  simp [loopLangs, hl, hr, hs, hg]

/-- The loop finishes with no early exit exactly when every language in the
list passes. -/
lemma loopLangs_none_iff (env : JudgeEnv) (tcs : List TestCase)
    (langs : List (String × String)) :
    (loopLangs env tcs langs).1 = none ↔ ∀ p ∈ langs, LangPasses env tcs p := by
  induction langs with
  | nil => simp [loopLangs]
  | cons p rest ih =>
    obtain ⟨language, solutionCode⟩ := p
    constructor
    · intro h q hq
      cases hl : env.lookupId language with
      | none => rw [loopLangs_cons_unsupported env tcs _ _ _ hl] at h; simp at h
      | some lid =>
        cases hr : env.runBatch (buildSubmissions solutionCode lid tcs) with
        | error e =>
          cases e
          rw [loopLangs_cons_error env tcs _ _ _ _ hl hr] at h; simp at h
        | ok results =>
          cases hs : scanResults 0 results with
          | some pr =>
            obtain ⟨i, res⟩ := pr
            cases hg : (buildSubmissions solutionCode lid tcs)[i]? with
            | none => simp [loopLangs, hl, hr, hs, hg] at h
            | some s =>
              rw [loopLangs_cons_fail env tcs _ _ _ _ _ _ _ _ hl hr hs hg] at h
              simp at h
          | none =>
            rw [loopLangs_cons_pass env tcs _ _ _ _ _ hl hr hs] at h
            simp only [List.mem_cons] at hq
            rcases hq with hq | hq
            · subst hq
              exact ⟨lid, results, hl, hr,
                (scanResults_none_iff 0 results).mp hs⟩
            · exact (ih.mp (by simpa using h)) q hq
    · intro h
      obtain ⟨lid, results, hl, hr, hacc⟩ := h (language, solutionCode) (by simp)
      have hs : scanResults 0 results = none :=
        (scanResults_none_iff 0 results).mpr hacc
      rw [loopLangs_cons_pass env tcs _ _ _ _ _ hl hr hs]
      simpa using ih.mpr fun q hq => h q (by simp [hq])

/-- A prefix of fully passing languages contributes exactly one batch per
language and leaves the loop outcome to the remaining languages. -/
lemma loopLangs_append_passes (env : JudgeEnv) (tcs : List TestCase)
    (rest : List (String × String)) (pre : List (String × String))
    (hpre : ∀ p ∈ pre, LangPasses env tcs p) :
    ∃ bs : List (List Submission), bs.length = pre.length ∧
      loopLangs env tcs (pre ++ rest) =
        ((loopLangs env tcs rest).1, bs ++ (loopLangs env tcs rest).2) := by
  induction pre with
  | nil => exact ⟨[], rfl, by simp⟩
  | cons p pre ih =>
    obtain ⟨language, solutionCode⟩ := p
    obtain ⟨lid, results, hl, hr, hacc⟩ := hpre (language, solutionCode) (by simp)
    have hs : scanResults 0 results = none :=
      (scanResults_none_iff 0 results).mpr hacc
    obtain ⟨bs, hbs, heq⟩ := ih fun q hq => hpre q (by simp [hq])
    refine ⟨buildSubmissions solutionCode lid tcs :: bs, by simp [hbs], ?_⟩
    rw [List.cons_append, loopLangs_cons_pass env tcs _ _ _ _ _ hl hr hs, heq]
    simp

/-- Unfolding `createProblem` for an admin requester when the loop exits
early with response `r` and batches `bs`: nothing is persisted. -/
lemma createProblem_admin_some (env : JudgeEnv) (user : ReqUser)
    (draft : ProblemDraft) (r : CPResponse) (bs : List (List Submission))
    (hrole : user.role = Role.ADMIN)
    (hloop : loopLangs env draft.testCases draft.referenceSolutions =
      (some r, bs)) :
    createProblem env user draft =
      { response := r, batches := bs, persisted := [] } := by
  simp [createProblem, hrole, hloop]

/-- Unfolding `createProblem` for an admin requester when the loop finishes
cleanly: the problem is persisted and returned with 201. -/
lemma createProblem_admin_none (env : JudgeEnv) (user : ReqUser)
    (draft : ProblemDraft) (bs : List (List Submission))
    (hrole : user.role = Role.ADMIN)
    (hloop : loopLangs env draft.testCases draft.referenceSolutions =
      (none, bs)) :
    createProblem env user draft =
      { response := CPResponse.created (mkProblem draft user.id)
        batches := bs
        persisted := [mkProblem draft user.id] } := by
  simp [createProblem, hrole, hloop]

/-- Indexing into the built submissions mirrors indexing into the test
cases. -/
lemma buildSubmissions_idx (solutionCode : String) (lid : Nat)
    (tcs : List TestCase) (i : Nat) :
    (buildSubmissions solutionCode lid tcs)[i]? =
      (tcs[i]?).map fun tc =>
        { source_code := solutionCode
          language_id := lid
          stdin := tc.input
          expected_output := tc.output } := by
  simp [buildSubmissions]

/-! ## Concrete fixtures -/

/-- An Accepted judge result (status id 3). -/
def okJudgeResult : JudgeResult := { status := { id := 3 }, token := "tok" }

/-- A judge environment that resolves only "python" (id 71) and accepts
every submitted unit. -/
def acceptAllEnv : JudgeEnv where
  lookupId := fun l => if l = "python" then some 71 else none
  runBatch := fun subs => Except.ok (subs.map fun _ => okJudgeResult)

/-- The accept-all environment honours the order-preserving judge
contract. -/
lemma acceptAllEnv_op : acceptAllEnv.OrderPreserving := by
  intro subs results h
  simp only [acceptAllEnv, Except.ok.injEq] at h
  subst h
  simp

/-- An ADMIN requester. -/
def adminUser : ReqUser := { id := 1, role := Role.ADMIN }

/-- A non-ADMIN requester. -/
def normalUser : ReqUser := { id := 2, role := Role.USER }

/-- A one-test-case draft with a single python reference solution (the
concrete scenario of the spec). -/
def draft1 : ProblemDraft where
  title := "Echo"
  description := "print the input"
  difficulty := "EASY"
  tags := ["io"]
  examples := [{ input := "5", output := "5", explanation := "echo" }]
  constraints := "none"
  testCases := [{ input := "5", output := "5" }]
  codeSnippets := [("python", "def solve(): pass")]
  referenceSolutions := [("python", "print(input())")]

/-- Every reference solution of `draft1` passes under the accept-all
environment. -/
lemma draft1_passes :
    ∀ p ∈ draft1.referenceSolutions, LangPasses acceptAllEnv draft1.testCases p := by
  intro p hp
  simp only [draft1, List.mem_singleton] at hp
  subst hp
  exact ⟨71, [okJudgeResult], by decide, rfl, by decide⟩

/-- The same draft with 45 test cases for the single python solution. -/
def draft45 : ProblemDraft :=
  { draft1 with testCases := List.replicate 45 { input := "5", output := "5" } }

/-! ## Claim theorems -/

/-- C1: All-or-nothing persistence — `createProblem` persists a problem
record only when the requester is an admin and, for every reference
solution in the draft, the judge accepted every test case (status id 3 for
each (solution, test case) pair).  Contrapositively, any validation
failure (unauthorized requester, unsupported language, non-accepted judge
result) or any thrown lower-layer judge error leaves the store untouched.
The hypothesis `hop` is the Judge Client contract that polling returns one
result per submitted unit. -/
theorem c1_all_or_nothing (env : JudgeEnv) (user : ReqUser)
    (draft : ProblemDraft) (hop : env.OrderPreserving)
    (hne : (createProblem env user draft).persisted ≠ []) :
    user.role = Role.ADMIN ∧
    ∀ p ∈ draft.referenceSolutions, ∃ lid results,
      env.lookupId p.1 = some lid ∧
      env.runBatch (buildSubmissions p.2 lid draft.testCases) =
        Except.ok results ∧
      results.length = draft.testCases.length ∧
      ∀ r ∈ results, r.status.id = 3 := by
  by_cases hrole : user.role = Role.ADMIN
  · refine ⟨hrole, ?_⟩
    rcases hfst : loopLangs env draft.testCases draft.referenceSolutions with
      ⟨o, bs⟩
    cases o with
    | some r =>
      exact absurd
        (by simp [createProblem_admin_some env user draft r bs hrole hfst]) hne
    | none =>
      have hall := (loopLangs_none_iff env draft.testCases
        draft.referenceSolutions).mp (by rw [hfst])
      intro p hp
      obtain ⟨lid, results, hl, hr, hacc⟩ := hall p hp
      refine ⟨lid, results, hl, hr, ?_, hacc⟩
      rw [hop _ _ hr]
      simp [buildSubmissions]
  · exact absurd (by simp [createProblem, hrole]) hne

/-- Witness for C1: the accept-all environment on the one-test-case draft
persists, and the conclusion holds there. -/
theorem c1_all_or_nothing_witness :
    (acceptAllEnv.OrderPreserving ∧
      (createProblem acceptAllEnv adminUser draft1).persisted ≠ []) ∧
    (adminUser.role = Role.ADMIN ∧
      ∀ p ∈ draft1.referenceSolutions, ∃ lid results,
        acceptAllEnv.lookupId p.1 = some lid ∧
        acceptAllEnv.runBatch (buildSubmissions p.2 lid draft1.testCases) =
          Except.ok results ∧
        results.length = draft1.testCases.length ∧
        ∀ r ∈ results, r.status.id = 3) :=
  ⟨⟨acceptAllEnv_op, by decide⟩,
    c1_all_or_nothing acceptAllEnv adminUser draft1 acceptAllEnv_op (by decide)⟩

/-- C2 (code bug): for a draft with 45 test cases for one language the
code hands `submitBatch` a single batch of all 45 units — the splitting
into sub-batches of at most 20 is left as an unimplemented TODO in the
source (`// TODO: CONVERT SUBMISSION TO CHUNKS OF 20`), so a batch larger
than the judge's limit of 20 reaches the judge. -/
theorem c2_no_chunking :
    ((createProblem acceptAllEnv adminUser draft45).batches.map
      List.length) = [45] := by
  decide

/-- C3: first-failure reporting — when every language before `(L, sol)` in
the reference-solutions iteration order passes fully, `L` resolves, the
judge returns one result per test case, and index `i` holds the first
result whose status is not Accepted, then the operation answers 400
identifying exactly language `L` and that test case by its input, carrying
the judge's raw result as detail; exactly one batch per earlier language
plus the one for `L` was submitted (so no later language reaches the
judge), and nothing is persisted. -/
theorem c3_first_failure (env : JudgeEnv) (user : ReqUser)
    (draft : ProblemDraft) (pre post : List (String × String))
    (L sol : String) (lid : Nat) (results : List JudgeResult) (i : Nat)
    (hrole : user.role = Role.ADMIN)
    (hsplit : draft.referenceSolutions = pre ++ (L, sol) :: post)
    (hpre : ∀ p ∈ pre, LangPasses env draft.testCases p)
    (hl : env.lookupId L = some lid)
    (hr : env.runBatch (buildSubmissions sol lid draft.testCases) =
      Except.ok results)
    (hlen : results.length = draft.testCases.length)
    (hi : i < results.length)
    (hfail : (results.get ⟨i, hi⟩).status.id ≠ 3)
    (hfirst : ∀ j (hj : j < i), (results.get ⟨j, hj.trans hi⟩).status.id = 3) :
    (createProblem env user draft).response =
      CPResponse.validationFailed L
        ((draft.testCases.get ⟨i, hlen ▸ hi⟩).input) (results.get ⟨i, hi⟩) ∧
    (createProblem env user draft).response.statusCode = 400 ∧
    (createProblem env user draft).batches.length = pre.length + 1 ∧
    (createProblem env user draft).persisted = [] := by
  have hi2 : i < draft.testCases.length := hlen ▸ hi
  have hscan : scanResults 0 results = some (i, results.get ⟨i, hi⟩) := by
    have := scanResults_first results i 0 hi hfail hfirst
    simpa using this
  have hg : (buildSubmissions sol lid draft.testCases)[i]? =
      some { source_code := sol
             language_id := lid
             stdin := (draft.testCases.get ⟨i, hi2⟩).input
             expected_output := (draft.testCases.get ⟨i, hi2⟩).output } := by
    rw [buildSubmissions_idx, List.getElem?_eq_getElem hi2]
    simp [List.get_eq_getElem]
  have htail := loopLangs_cons_fail env draft.testCases L sol post lid results i
    (results.get ⟨i, hi⟩) _ hl hr hscan hg
  obtain ⟨bs, hbs, heq⟩ := loopLangs_append_passes env draft.testCases
    ((L, sol) :: post) pre hpre
  rw [htail] at heq
  have hloop : loopLangs env draft.testCases draft.referenceSolutions =
      (some (CPResponse.validationFailed L
          ((draft.testCases.get ⟨i, hi2⟩).input) (results.get ⟨i, hi⟩)),
        bs ++ [buildSubmissions sol lid draft.testCases]) := by
    rw [hsplit, heq]
  rw [createProblem_admin_some env user draft _ _ hrole hloop]
  refine ⟨rfl, rfl, ?_, rfl⟩
  simp [hbs]

/-- A judge environment that resolves "python" (71) and "java" (62) and
rejects with status 4 exactly the units whose stdin is "bad". -/
def failBadEnv : JudgeEnv where
  lookupId := fun l =>
    if l = "python" then some 71 else if l = "java" then some 62 else none
  runBatch := fun subs => Except.ok (subs.map fun s =>
    if s.stdin = "bad" then { status := { id := 4 }, token := "t" }
    else okJudgeResult)

/-- A two-test-case, two-language draft whose second test case has the
failing input "bad". -/
def draftFail : ProblemDraft :=
  { draft1 with
    testCases := [{ input := "good", output := "o" },
      { input := "bad", output := "o" }]
    referenceSolutions := [("python", "sol-p"), ("java", "sol-j")] }

/-- The results `failBadEnv` returns for the python batch of `draftFail`. -/
def failResults : List JudgeResult :=
  [okJudgeResult, { status := { id := 4 }, token := "t" }]

/-- Witness for C3: python's second test case is the first failure; the
error names python and the input "bad" with the raw result, java is never
submitted, and nothing is persisted. -/
theorem c3_first_failure_witness :
    (createProblem failBadEnv adminUser draftFail).response =
      CPResponse.validationFailed "python" "bad"
        { status := { id := 4 }, token := "t" } ∧
    (createProblem failBadEnv adminUser draftFail).response.statusCode = 400 ∧
    (createProblem failBadEnv adminUser draftFail).batches.length = 1 ∧
    (createProblem failBadEnv adminUser draftFail).persisted = [] := by
  have h := c3_first_failure failBadEnv adminUser draftFail []
    [("java", "sol-j")] "python" "sol-p" 71 failResults 1 rfl rfl
    (by simp) (by decide) rfl rfl (by decide) (by decide)
    (fun j hj => by
      have hj0 : j = 0 := by omega
      subst hj0
      rfl)
  exact ⟨h.1, h.2.1, h.2.2.1, h.2.2.2⟩

/-- A draft whose first language is the supported "python" and whose
second language "cobol" is unknown to the lookup table. -/
def draftUnsupported : ProblemDraft :=
  { draft1 with referenceSolutions := [("python", "sol-p"), ("cobol", "sol-c")] }

/-- C4 counterexample: the claim asserts that any draft containing an
unresolvable language triggers zero judge submissions, but when a
supported, passing language precedes the unsupported one, its batch is
already submitted before the UnsupportedLanguage failure: here the run
fails naming "cobol" yet one batch (of one unit) went to the judge. -/
theorem c4_counterexample :
    (createProblem acceptAllEnv adminUser draftUnsupported).response =
      CPResponse.unsupportedLanguage "cobol" ∧
    ((createProblem acceptAllEnv adminUser draftUnsupported).batches.map
      List.length) = [1] ∧
    (createProblem acceptAllEnv adminUser draftUnsupported).persisted = [] := by
  decide

/-- C4 as amended: when the first unresolvable language `L` is preceded
only by resolvable languages that pass every test case, the operation
fails with UnsupportedLanguage naming `L` (status 400), submits exactly
the earlier languages' batches — zero when `L` comes first — and never
for `L` or any later language, and performs zero persistence calls. -/
theorem c4_amended_unsupported (env : JudgeEnv) (user : ReqUser)
    (draft : ProblemDraft) (pre post : List (String × String))
    (L sol : String)
    (hrole : user.role = Role.ADMIN)
    (hsplit : draft.referenceSolutions = pre ++ (L, sol) :: post)
    (hpre : ∀ p ∈ pre, LangPasses env draft.testCases p)
    (hl : env.lookupId L = none) :
    (createProblem env user draft).response =
      CPResponse.unsupportedLanguage L ∧
    (createProblem env user draft).response.statusCode = 400 ∧
    (createProblem env user draft).batches.length = pre.length ∧
    (createProblem env user draft).persisted = [] := by
  have htail := loopLangs_cons_unsupported env draft.testCases L sol post hl
  obtain ⟨bs, hbs, heq⟩ := loopLangs_append_passes env draft.testCases
    ((L, sol) :: post) pre hpre
  rw [htail] at heq
  have hloop : loopLangs env draft.testCases draft.referenceSolutions =
      (some (CPResponse.unsupportedLanguage L), bs) := by
    rw [hsplit, heq]
    simp
  rw [createProblem_admin_some env user draft _ _ hrole hloop]
  exact ⟨rfl, rfl, hbs, rfl⟩

/-- Witness for the amended C4 on the python-then-cobol draft: the failure
names "cobol", only python's single batch was submitted, and nothing is
persisted. -/
theorem c4_amended_unsupported_witness :
    (createProblem acceptAllEnv adminUser draftUnsupported).response =
      CPResponse.unsupportedLanguage "cobol" ∧
    (createProblem acceptAllEnv adminUser draftUnsupported).response.statusCode
      = 400 ∧
    (createProblem acceptAllEnv adminUser draftUnsupported).batches.length
      = 1 ∧
    (createProblem acceptAllEnv adminUser draftUnsupported).persisted = [] := by
  have h := c4_amended_unsupported acceptAllEnv adminUser draftUnsupported
    [("python", "sol-p")] [] "cobol" "sol-c" rfl rfl
    (by
      intro p hp
      simp only [List.mem_singleton] at hp
      subst hp
      exact ⟨71, [okJudgeResult], by decide, rfl, by decide⟩)
    (by decide)
  exact ⟨h.1, h.2.1, h.2.2.1, h.2.2.2⟩

/-- C5: a requester whose role is not ADMIN receives the 401 Unauthorized
response, and the run performs zero judge batches and zero persistence
calls. -/
theorem c5_unauthorized (env : JudgeEnv) (user : ReqUser)
    (draft : ProblemDraft) (hrole : user.role ≠ Role.ADMIN) :
    createProblem env user draft =
      { response := CPResponse.unauthorized, batches := [], persisted := [] } ∧
    (createProblem env user draft).response.statusCode = 401 := by
  have h : createProblem env user draft =
      { response := CPResponse.unauthorized, batches := [], persisted := [] } := by
    simp [createProblem, hrole]
  exact ⟨h, by rw [h]; rfl⟩

/-- Witness for C5: a USER-role requester on the one-test-case draft. -/
theorem c5_unauthorized_witness :
    normalUser.role ≠ Role.ADMIN ∧
    (createProblem acceptAllEnv normalUser draft1 =
      { response := CPResponse.unauthorized, batches := [], persisted := [] } ∧
    (createProblem acceptAllEnv normalUser draft1).response.statusCode = 401) :=
  ⟨by decide, c5_unauthorized acceptAllEnv normalUser draft1 (by decide)⟩

/-- C6: round-trip on success — when the requester is an admin and every
reference solution passes every test case, `createProblem` persists and
returns with status 201 a problem whose stored test cases and reference
solutions equal the input draft's exactly and whose owning user id is the
requester's. -/
theorem c6_roundtrip (env : JudgeEnv) (user : ReqUser) (draft : ProblemDraft)
    (hrole : user.role = Role.ADMIN)
    (hpass : ∀ p ∈ draft.referenceSolutions, LangPasses env draft.testCases p) :
    ∃ p : Problem,
      (createProblem env user draft).response = CPResponse.created p ∧
      (createProblem env user draft).persisted = [p] ∧
      p.testCases = draft.testCases ∧
      p.referenceSolutions = draft.referenceSolutions ∧
      p.userId = user.id ∧
      (createProblem env user draft).response.statusCode = 201 := by
  have h1 : (loopLangs env draft.testCases draft.referenceSolutions).1 = none :=
    (loopLangs_none_iff env draft.testCases draft.referenceSolutions).mpr hpass
  have hloop : loopLangs env draft.testCases draft.referenceSolutions =
      (none, (loopLangs env draft.testCases draft.referenceSolutions).2) := by
    rw [← h1]
  rw [createProblem_admin_none env user draft _ hrole hloop]
  exact ⟨mkProblem draft user.id, rfl, rfl, rfl, rfl, rfl, rfl⟩

/-- Witness for C6: the accept-all environment on the one-test-case
draft. -/
theorem c6_roundtrip_witness :
    (adminUser.role = Role.ADMIN ∧
      ∀ p ∈ draft1.referenceSolutions,
        LangPasses acceptAllEnv draft1.testCases p) ∧
    ∃ p : Problem,
      (createProblem acceptAllEnv adminUser draft1).response =
        CPResponse.created p ∧
      (createProblem acceptAllEnv adminUser draft1).persisted = [p] ∧
      p.testCases = draft1.testCases ∧
      p.referenceSolutions = draft1.referenceSolutions ∧
      p.userId = adminUser.id ∧
      (createProblem acceptAllEnv adminUser draft1).response.statusCode = 201 :=
  ⟨⟨rfl, draft1_passes⟩,
    c6_roundtrip acceptAllEnv adminUser draft1 rfl draft1_passes⟩

/-! ## Auth fixtures and claim theorems -/

/-- A bcrypt-style environment: hashing appends a tag, comparison checks
the tag, and the deployment is "development". -/
def env0 : AuthEnv where
  hash := fun s => s ++ "#h"
  compare := fun plain stored => stored == plain ++ "#h"
  nodeEnv := "development"

/-- A stored user. -/
def user1 : User :=
  { id := 1, email := "a@b.c", password := "pw#h", name := "A",
    role := Role.USER, image := none }

/-- A table already holding `user1`. -/
def storeTaken : UserStore := { users := [user1], nextId := 2 }

/-- A registration request for the already-taken email. -/
def reqDup : RegisterReq :=
  { email := "a@b.c", password := "pw", name := "Ann" }

/-- A registration request for a fresh email. -/
def reqNew : RegisterReq :=
  { email := "new@b.c", password := "pw", name := "Nadia" }

/-- C7: register atomicity on duplicate email — a request whose email is
already in the table answers 400, sets no session cookie and leaves the
table unchanged; otherwise the handler creates exactly one user carrying
the request's email and name with role USER, answers 201 with the user,
and sets a session cookie with 7-day expiry. -/
theorem c7_register_duplicate (env : AuthEnv) (store : UserStore)
    (req : RegisterReq) :
    (∀ u, findUserByEmail store req.email = some u →
      (register env store req).response = RegisterResponse.emailTaken ∧
      (register env store req).response.statusCode = 400 ∧
      (register env store req).cookie = none ∧
      (register env store req).store = store) ∧
    (findUserByEmail store req.email = none →
      ∃ newUser : User,
        (register env store req).response =
          RegisterResponse.registered (userView newUser) ∧
        (register env store req).response.statusCode = 201 ∧
        (register env store req).cookie =
          some ({ userId := newUser.id, expiresIn := "7d" },
            sessionCookieOpts env) ∧
        (sessionCookieOpts env).maxAgeMs = 7 * 24 * 60 * 60 * 1000 ∧
        (register env store req).store.users = store.users ++ [newUser] ∧
        newUser.email = req.email ∧ newUser.name = req.name ∧
        newUser.role = Role.USER) := by
  constructor
  · intro u hu
    simp [register, hu, RegisterResponse.statusCode]
  · intro hn
    refine ⟨(createUser store req.email (env.hash req.password) req.name).1,
      ?_, ?_, ?_, rfl, ?_, rfl, rfl, rfl⟩ <;>
      simp [register, hn, createUser, userView, RegisterResponse.statusCode]

/-- Witness for C7, on a concrete table: the taken email "a@b.c" is
rejected without a cookie or a new row; the fresh email "new@b.c" creates
one USER row with a 7-day cookie and 201. -/
theorem c7_register_duplicate_witness :
    (findUserByEmail storeTaken reqDup.email = some user1 ∧
      (register env0 storeTaken reqDup).response =
        RegisterResponse.emailTaken ∧
      (register env0 storeTaken reqDup).response.statusCode = 400 ∧
      (register env0 storeTaken reqDup).cookie = none ∧
      (register env0 storeTaken reqDup).store = storeTaken) ∧
    (findUserByEmail storeTaken reqNew.email = none ∧
      ∃ newUser : User,
        (register env0 storeTaken reqNew).response =
          RegisterResponse.registered (userView newUser) ∧
        (register env0 storeTaken reqNew).response.statusCode = 201 ∧
        (register env0 storeTaken reqNew).cookie =
          some ({ userId := newUser.id, expiresIn := "7d" },
            sessionCookieOpts env0) ∧
        (sessionCookieOpts env0).maxAgeMs = 7 * 24 * 60 * 60 * 1000 ∧
        (register env0 storeTaken reqNew).store.users =
          storeTaken.users ++ [newUser] ∧
        newUser.email = reqNew.email ∧ newUser.name = reqNew.name ∧
        newUser.role = Role.USER) := by
  constructor
  · exact ⟨by decide,
      (c7_register_duplicate env0 storeTaken reqDup).1 user1 (by decide)⟩
  · exact ⟨by decide,
      (c7_register_duplicate env0 storeTaken reqNew).2 (by decide)⟩

/-- C8 (code bug): both `logout` and `check` have empty bodies in the
source; invoked on an authenticated request they set no status, clear no
cookie and send no body — contrary to the documented behavior (logout
clears the jwt cookie, check answers 200 with the user). -/
theorem c8_stub_handlers :
    logout user1 =
      { status := none, clearedJwtCookie := false, body := none } ∧
    check user1 =
      { status := none, clearedJwtCookie := false, body := none } :=
  ⟨rfl, rfl⟩

/-- C9 (implicit): registration can only add a USER-role row — the list of
ADMIN rows in the table is unchanged by any registration request, and the
user carried in the response body, when present, has role USER. -/
theorem c9_register_role (env : AuthEnv) (store : UserStore)
    (req : RegisterReq) :
    ((register env store req).store.users.filter fun u =>
      u.role == Role.ADMIN) =
      (store.users.filter fun u => u.role == Role.ADMIN) ∧
    ((register env store req).response.bodyRole = some Role.USER ∨
      (register env store req).response.bodyRole = none) := by
  cases h : findUserByEmail store req.email with
  | some u => simp [register, h, RegisterResponse.bodyRole]
  | none =>
    constructor
    · simp [register, h, createUser, List.filter_append]
      decide
    · left
      simp [register, h, createUser, userView, RegisterResponse.bodyRole]

/-- An environment whose comparator accepts everything, for the login
noninterference witness. -/
def envCmp : AuthEnv where
  hash := fun s => s ++ "#h"
  compare := fun _ _ => true
  nodeEnv := "production"

/-- `user1` with a different stored password hash and nothing else
changed. -/
def user2 : User := { user1 with password := "other#h" }

/-- A table holding `user1`. -/
def storeA : UserStore := { users := [user1], nextId := 2 }

/-- A table holding `user2` instead. -/
def storeB : UserStore := { users := [user2], nextId := 2 }

/-- A login request for the stored email. -/
def loginReq1 : LoginReq := { email := "a@b.c", password := "pw" }

/-- C10 (implicit): password-hash confidentiality.  The success bodies of
register and login are built from `userView`, which carries exactly the
fields id, email, name, role and image and not the stored hash.
Formally: (a) two login runs over stores whose records for the requested
email agree on every field except the stored password hash, both accepted
by the comparator, produce identical responses and cookies; (b) the
register response and cookie are unchanged under swapping the hash
function, so the computed hash never flows into them. -/
theorem c10_hash_confidentiality (env : AuthEnv) (s1 s2 : UserStore)
    (lreq : LoginReq) (u1 u2 : User)
    (hashA hashB : String → String) (store : UserStore) (rreq : RegisterReq)
    (h1 : findUserByEmail s1 lreq.email = some u1)
    (h2 : findUserByEmail s2 lreq.email = some u2)
    (hid : u1.id = u2.id) (hemail : u1.email = u2.email)
    (hname : u1.name = u2.name) (hrole : u1.role = u2.role)
    (himage : u1.image = u2.image)
    (hc1 : env.compare lreq.password u1.password = true)
    (hc2 : env.compare lreq.password u2.password = true) :
    login env s1 lreq = login env s2 lreq ∧
    (register { env with hash := hashA } store rreq).response =
      (register { env with hash := hashB } store rreq).response ∧
    (register { env with hash := hashA } store rreq).cookie =
      (register { env with hash := hashB } store rreq).cookie := by
  refine ⟨?_, ?_, ?_⟩
  · simp [login, h1, h2, hc1, hc2, userView, hid, hemail, hname, hrole, himage]
  all_goals
    cases h : findUserByEmail store rreq.email with
    | some u => simp [register, h]
    | none => simp [register, h, createUser, userView, sessionCookieOpts]

/-- Witness for C10: the stores holding `user1` and `user2` (same record
up to the stored hash) produce identical login outcomes, and two register
runs with different hash functions produce identical responses and
cookies. -/
theorem c10_hash_confidentiality_witness :
    login envCmp storeA loginReq1 = login envCmp storeB loginReq1 ∧
    (register { envCmp with hash := fun s => s ++ "#1" } storeA reqNew).response
      = (register { envCmp with hash := fun s => s ++ "#2" } storeA
        reqNew).response ∧
    (register { envCmp with hash := fun s => s ++ "#1" } storeA reqNew).cookie
      = (register { envCmp with hash := fun s => s ++ "#2" } storeA
        reqNew).cookie :=
  c10_hash_confidentiality envCmp storeA storeB loginReq1 user1 user2
    (fun s => s ++ "#1") (fun s => s ++ "#2") storeA reqNew
    (by decide) (by decide) rfl rfl rfl rfl rfl rfl rfl

end Codeitout
